import Mathlib

/-!
Verification of the action-plan execution core of the Ezra repository.

Shallow embedding: the Python sources under src/ are translated into
executable Lean definitions.  Wall-clock time is abstracted (durations are
kept as a field but fixed to 0; timestamps are passed in as explicit
parameters where the source reads the clock).  Adapter and subprocess
behaviour is abstracted into explicit response functions, so every engine
function is a pure function of the plan and of those responses.
-/

namespace Ezra

/-! ## Model of src/executor/ezra_executor (adapters/base.py, executor.py) -/

/-- ExecutionResult from adapters/base.py.  The pydantic model has defaults
output = "", error = None, exit_code = 0; duration is a float in the source
and is abstracted to a Nat fixed at 0. -/
structure ExecutionResult where
  success : Bool
  output : String := ""
  error : Option String := none
  exit_code : Int := 0
  duration : Nat := 0
  deriving DecidableEq, Repr

/-- The adapter operations the engine invokes, as total response functions.
The concrete adapters (for example LinuxAdapter) catch every exception and
return an ExecutionResult, so totality matches the source. -/
structure Adapter where
  execute_command : String → ExecutionResult
  install_package : String → ExecutionResult
  modify_file : String → List (String × String) → ExecutionResult
  create_backup : String → String → ExecutionResult
  restore_backup : String → String → ExecutionResult

/-- Observable events of the engine: the backup hook of execute_action and
each adapter invocation, in the order the source performs them. -/
inductive Event where
  | backup (action_id : String)
  | exec_cmd (command : String)
  | install (package : String)
  | modify (file_path : String)
  | create_bk (source destination : String)
  | restore_bk (backup_path destination : String)
  deriving DecidableEq, Repr

/-- Is the event an adapter invocation (as opposed to the backup hook)? -/
def Event.is_adapter_call : Event → Bool
  | .backup _ => false
  | _ => true

/-- An action dict as read by executor.py via action.get(key, default).
Absent keys are represented by the corresponding get default; the presence
check on rollback_commands is an Option. -/
structure Action where
  id : String := "unknown"
  type : String := "unknown"
  commands : List String := []
  risk_level : String := "medium"
  package : String := ""
  file_path : String := ""
  changes : List (String × String) := []
  source : String := ""
  destination : String := ""
  backup_path : String := ""
  rollback_commands : Option (List String) := none
  deriving DecidableEq, Repr

/-- The loop of ExecutorEngine._execute_commands: run sequentially, return
the first failing result; if all succeed return ExecutionResult(success=True). -/
def run_command_list (ad : Adapter) : List String → ExecutionResult × List Event
  | [] => ({ success := true }, [])
  | c :: cs =>
      if (ad.execute_command c).success then
        ((run_command_list ad cs).1, Event.exec_cmd c :: (run_command_list ad cs).2)
      else (ad.execute_command c, [Event.exec_cmd c])

/-- ExecutorEngine._execute_commands. -/
def execute_commands (ad : Adapter) (commands : List String) : ExecutionResult × List Event :=
  if commands.isEmpty then
    ({ success := false, error := some "No commands specified" }, [])
  else run_command_list ad commands

/-- ExecutorEngine._execute_install. -/
def execute_install (ad : Adapter) (a : Action) : ExecutionResult × List Event :=
  if a.package = "" then
    ({ success := false, error := some "No package specified" }, [])
  else (ad.install_package a.package, [Event.install a.package])

/-- ExecutorEngine._execute_configure: modify_file when both file_path and
changes are truthy, otherwise fall back to command execution. -/
def execute_configure (ad : Adapter) (a : Action) : ExecutionResult × List Event :=
  if a.file_path ≠ "" ∧ a.changes ≠ [] then
    (ad.modify_file a.file_path a.changes, [Event.modify a.file_path])
  else execute_commands ad a.commands

/-- ExecutorEngine._execute_modify (same body as configure in the source). -/
def execute_modify (ad : Adapter) (a : Action) : ExecutionResult × List Event :=
  if a.file_path ≠ "" ∧ a.changes ≠ [] then
    (ad.modify_file a.file_path a.changes, [Event.modify a.file_path])
  else execute_commands ad a.commands

/-- ExecutorEngine._execute_backup. -/
def execute_backup (ad : Adapter) (a : Action) : ExecutionResult × List Event :=
  if a.source ≠ "" ∧ a.destination ≠ "" then
    (ad.create_backup a.source a.destination, [Event.create_bk a.source a.destination])
  else ({ success := false, error := some "No source or destination specified" }, [])

/-- ExecutorEngine._execute_restore. -/
def execute_restore (ad : Adapter) (a : Action) : ExecutionResult × List Event :=
  if a.backup_path ≠ "" ∧ a.destination ≠ "" then
    (ad.restore_backup a.backup_path a.destination, [Event.restore_bk a.backup_path a.destination])
  else ({ success := false, error := some "No backup path or destination specified" }, [])

/-- The type dispatch of ExecutorEngine.execute_action (jailbreak, bypass and
unknown types all run the raw command list). -/
def dispatch_action (ad : Adapter) (a : Action) : ExecutionResult × List Event :=
  if a.type = "install" then execute_install ad a
  else if a.type = "configure" then execute_configure ad a
  else if a.type = "modify" then execute_modify ad a
  else if a.type = "backup" then execute_backup ad a
  else if a.type = "restore" then execute_restore ad a
  else if a.type = "jailbreak" then execute_commands ad a.commands
  else if a.type = "bypass" then execute_commands ad a.commands
  else execute_commands ad a.commands

/-- ExecutorEngine.execute_action: the _create_backup hook fires first when
risk_level is high or critical, then the dispatch runs.  The adapter response
functions are total, so the except branch of the source cannot fire. -/
def execute_action (ad : Adapter) (a : Action) : ExecutionResult × List Event :=
  ((dispatch_action ad a).1,
    (if a.risk_level = "high" ∨ a.risk_level = "critical"
      then [Event.backup a.id] else [])
    ++ (dispatch_action ad a).2)

/-- The per-action loop of ExecutorEngine.execute_action_plan: append one
result per action, and stop after a failed action whose risk_level is
critical. -/
def execute_plan_actions (ad : Adapter) : List Action → List ExecutionResult × List Event
  | [] => ([], [])
  | a :: rest =>
      if (execute_action ad a).1.success = false ∧ a.risk_level = "critical" then
        ([(execute_action ad a).1], (execute_action ad a).2)
      else
        ((execute_action ad a).1 :: (execute_plan_actions ad rest).1,
          (execute_action ad a).2 ++ (execute_plan_actions ad rest).2)

/-- The adapter registry of ExecutorEngine.__init__ keyed by platform name. -/
structure ExecutorEngine where
  adapters : List (String × Adapter)

/-- The registry built in ExecutorEngine.__init__ for linux, windows, android. -/
def default_adapters (linux windows android : Adapter) : List (String × Adapter) :=
  [("linux", linux), ("windows", windows), ("android", android)]

/-- ExecutorEngine.get_adapter: a missing platform raises
ValueError("Unsupported platform: ..."), modelled as an error return. -/
def get_adapter (eng : ExecutorEngine) (platform : String) : Except String Adapter :=
  match eng.adapters.lookup platform with
  | some ad => Except.ok ad
  | none => Except.error ("Unsupported platform: " ++ platform)

/-- The action plan dict of ExecutorEngine.execute_action_plan:
plan.get("platform", "linux") and plan.get("actions", []). -/
structure PlanDict where
  platform : String := "linux"
  actions : List Action := []

/-- ExecutorEngine.execute_action_plan: get_adapter is called before the
loop, so an unsupported platform propagates out before any action runs. -/
def execute_action_plan (eng : ExecutorEngine) (plan : PlanDict) :
    Except String (List ExecutionResult) × List Event :=
  match get_adapter eng plan.platform with
  | Except.error e => (Except.error e, [])
  | Except.ok ad =>
      (Except.ok (execute_plan_actions ad plan.actions).1,
        (execute_plan_actions ad plan.actions).2)

/-! ## Model of src/agent/ezra_agent/executor.py (ActionExecutor)

Here a subprocess run either completes with a return code and captured
stdout/stderr, or its timeout expires.  _execute_command raises
CommandExecutionError for a non-zero return code and for a timeout; raising
is modelled as Except.error carrying the message. -/

/-- Outcome of subprocess.run inside ActionExecutor._execute_command. -/
inductive RawOutcome where
  | completed (returncode : Int) (stdout stderr : String)
  | timedOut
  deriving DecidableEq, Repr

/-- The output assembled by _execute_command: stdout, with stderr appended
when non-empty. -/
def command_output (stdout stderr : String) : String :=
  if stderr ≠ "" then stdout ++ "\nSTDERR: " ++ stderr else stdout

/-- ActionExecutor._execute_command over an abstract subprocess runner. -/
def agent_execute_command (runner : String → RawOutcome) (command : String) :
    Except String String :=
  match runner command with
  | RawOutcome.completed rc out err =>
      if rc ≠ 0 then
        Except.error ("Command failed with code " ++ toString rc ++ ": " ++ err)
      else Except.ok (command_output out err)
  | RawOutcome.timedOut => Except.error ("Command timed out: " ++ command)

/-- ExecutionResult from agent/ezra_agent/executor.py (status is a string,
"completed" or "failed"); duration and timestamp abstracted. -/
structure AgentResult where
  action_id : String
  status : String
  output : String := ""
  error : Option String := none
  duration : Nat := 0
  deriving DecidableEq, Repr

/-- Observable events of the agent executor: backup file creation, plan
commands and rollback commands. -/
inductive AEvent where
  | backupFile (path : String)
  | cmd (command : String)
  | rollback_cmd (command : String)
  deriving DecidableEq, Repr

/-- The backup file name of ActionExecutor._create_backup:
f-string action_id, underscore, epoch seconds, ".json". -/
def backup_filename (action_id : String) (epoch : Nat) : String :=
  action_id ++ "_" ++ toString epoch ++ ".json"

/-- The command loop of ActionExecutor.execute_action: outputs are collected
until a command raises, in which case the error escapes to the except branch. -/
def agent_run_commands (runner : String → RawOutcome) :
    List String → Except String (List String) × List AEvent
  | [] => (Except.ok [], [])
  | c :: cs =>
      match agent_execute_command runner c with
      | Except.error e => (Except.error e, [AEvent.cmd c])
      | Except.ok out =>
          match agent_run_commands runner cs with
          | (Except.ok outs, evs) => (Except.ok (out :: outs), AEvent.cmd c :: evs)
          | (Except.error e, evs) => (Except.error e, AEvent.cmd c :: evs)

/-- The loop of ActionExecutor._execute_rollback: every rollback command is
attempted; a failure is logged (collected here as a command/message pair)
and swallowed. -/
def agent_rollback_loop (runner : String → RawOutcome) :
    List String → List (String × String) × List AEvent
  | [] => ([], [])
  | c :: cs =>
      match agent_execute_command runner c with
      | Except.error e =>
          ((c, e) :: (agent_rollback_loop runner cs).1,
            AEvent.rollback_cmd c :: (agent_rollback_loop runner cs).2)
      | Except.ok _ =>
          ((agent_rollback_loop runner cs).1,
            AEvent.rollback_cmd c :: (agent_rollback_loop runner cs).2)

/-- ActionExecutor._execute_rollback on the action dict (the source reads
action.get("rollback_commands", [])). -/
def agent_execute_rollback (runner : String → RawOutcome) (a : Action) :
    List (String × String) × List AEvent :=
  agent_rollback_loop runner (a.rollback_commands.getD [])

/-- ActionExecutor.execute_action: backup first when risk_level is high or
critical, then the commands; on failure, rollback runs when the
rollback_commands key is present and the failed result carries the original
error. -/
def agent_execute_action (runner : String → RawOutcome) (now : Nat) (a : Action) :
    AgentResult × List AEvent :=
  let backupEvents :=
    if a.risk_level = "high" ∨ a.risk_level = "critical"
      then [AEvent.backupFile (backup_filename a.id now)] else []
  match (agent_run_commands runner a.commands).1 with
  | Except.ok outs =>
      ({ action_id := a.id, status := "completed",
          output := String.intercalate "\n" outs },
        backupEvents ++ (agent_run_commands runner a.commands).2)
  | Except.error e =>
      ({ action_id := a.id, status := "failed", error := some e },
        backupEvents ++ (agent_run_commands runner a.commands).2
          ++ (if a.rollback_commands.isSome
                then (agent_execute_rollback runner a).2 else []))

/-- The per-action loop of ActionExecutor.execute_action_plan: one result per
action, stopping after a failed action whose risk_level is critical. -/
def agent_execute_action_plan (runner : String → RawOutcome) (now : Nat) :
    List Action → List AgentResult × List AEvent
  | [] => ([], [])
  | a :: rest =>
      if (agent_execute_action runner now a).1.status = "failed" ∧
          a.risk_level = "critical" then
        ([(agent_execute_action runner now a).1], (agent_execute_action runner now a).2)
      else
        ((agent_execute_action runner now a).1
            :: (agent_execute_action_plan runner now rest).1,
          (agent_execute_action runner now a).2
            ++ (agent_execute_action_plan runner now rest).2)

/-! ## Model of src/agent/ezra_agent/companion_client.py and main.py -/

/-- What the verifier HTTP interaction yields inside
CompanionClient.verify_signature: a requests.RequestException, a malformed
JSON body (ValueError/KeyError), or a parsed body whose "valid" key may be
absent. -/
inductive VerifierOutcome where
  | unreachable
  | malformed
  | responded (valid : Option Bool)
  deriving DecidableEq, Repr

/-- CompanionClient.verify_signature: result.get("valid", False) on a parsed
body; both exception branches return False. -/
def verify_signature : VerifierOutcome → Bool
  | VerifierOutcome.responded v => v.getD false
  | VerifierOutcome.unreachable => false
  | VerifierOutcome.malformed => false

/-- AgentResponse from companion_client.py (the fields process_request
reads); the action plan payload is kept abstract. -/
structure AgentResponse (Plan : Type) where
  action_plan : Plan
  consent_required : Bool

/-- Outcome of AgentDaemon.process_request: the returned boolean and the
plans that were handed to the executor. -/
structure ProcessOutcome (Plan : Type) where
  success : Bool
  executed_plans : List Plan
  deriving DecidableEq, Repr

/-- AgentDaemon.process_request: no plan, failed signature verification, or
a consent requirement each return False before the executor is invoked;
otherwise the plan is executed and success reflects the absence of failed
actions. -/
def process_request {Plan : Type} (planResp : Option (AgentResponse Plan))
    (verifier : VerifierOutcome) (executor : Plan → List AgentResult) :
    ProcessOutcome Plan :=
  match planResp with
  | none => { success := false, executed_plans := [] }
  | some resp =>
      if verify_signature verifier = false then
        { success := false, executed_plans := [] }
      else if resp.consent_required then
        { success := false, executed_plans := [] }
      else
        { success := (executor resp.action_plan).all (fun r => r.status = "completed"),
          executed_plans := [resp.action_plan] }

/-! ## Model of src/schemas/python/action_plan.py

Pydantic v2 semantics: a Field pattern constraint is checked during core
validation of the field, and a field_validator in its default "after" mode
runs only on values that already passed the core constraints.  Pydantic
reports a ValidationError; validation is modelled as Except with the first
failing field in declaration order (the source model fails with no partial
acceptance either way). -/

/-- Python str.lower, character by character (exact on the ASCII strings
these fields hold). -/
def str_lower (s : String) : String :=
  String.mk (s.toList.map Char.toLower)

/-- One character of the pattern [a-f0-9]. -/
def is_lower_hex_char (c : Char) : Bool :=
  ('a' ≤ c ∧ c ≤ 'f') ∨ ('0' ≤ c ∧ c ≤ '9')

/-- The regex of the hash fields: matches the anchored pattern of exactly 64
characters from [a-f0-9]. -/
def matchesHash64 (s : String) : Bool :=
  s.length = 64 ∧ s.toList.all is_lower_hex_char

/-- The device_manifest_hash field of ActionPlan: the Field pattern
constraint runs first; the validate_hash field validator (length guard, then
return v.lower()) runs after it. -/
def validate_device_manifest_hash (v : String) : Except String String :=
  if matchesHash64 v then
    if v = "" ∨ v.length ≠ 64 then
      Except.error "device_manifest_hash must be a 64-character hex string"
    else Except.ok (str_lower v)
  else Except.error "String should match pattern"

/-- The sha256 field of Artifact: only the Field pattern constraint, no
normalizing validator. -/
def validate_artifact_sha256 (v : String) : Except String String :=
  if matchesHash64 v then Except.ok v
  else Except.error "String should match pattern"

/-- Artifact fields subject to validation. -/
structure RawArtifact where
  url : String
  sha256 : String
  size : Int
  destination : Option String := none
  deriving DecidableEq, Repr

/-- Artifact validation: sha256 pattern and size ≥ 0. -/
def validate_artifact (a : RawArtifact) : Except String RawArtifact :=
  match validate_artifact_sha256 a.sha256 with
  | Except.error e => Except.error e
  | Except.ok _ =>
      if a.size < 0 then Except.error "size must be greater than or equal to 0"
      else Except.ok a

/-- Step fields subject to validation (command payload kept abstract). -/
structure RawStep where
  id : String
  type : String
  description : String := ""
  risk : Int
  artifact : Option RawArtifact := none
  deriving DecidableEq, Repr

/-- The members of the StepType enumeration. -/
def step_types : List String :=
  ["precheck", "ui", "fs", "install", "flash", "fetch", "custom"]

/-- Step validation: type must be a StepType member, risk in [0, 10], and a
present artifact must itself validate. -/
def validate_step (s : RawStep) : Except String RawStep :=
  if ¬ step_types.contains s.type then
    Except.error "type must be a valid StepType"
  else if s.risk < 0 ∨ 10 < s.risk then
    Except.error "risk must be between 0 and 10"
  else
    match s.artifact with
    | none => Except.ok s
    | some a =>
        match validate_artifact a with
        | Except.ok _ => Except.ok s
        | Except.error e => Except.error e

/-- Validate every step, failing on the first invalid one. -/
def validate_steps : List RawStep → Except String (List RawStep)
  | [] => Except.ok []
  | s :: ss =>
      match validate_step s with
      | Except.error e => Except.error e
      | Except.ok s1 =>
          match validate_steps ss with
          | Except.error e => Except.error e
          | Except.ok ss1 => Except.ok (s1 :: ss1)

/-- ActionPlan fields subject to validation; confidence is a float in [0, 1]
in the source, modelled as a rational. -/
structure RawPlan where
  device_manifest_hash : String
  steps : List RawStep
  confidence : Rat
  deriving DecidableEq, Repr

/-- A plan accepted by validation. -/
structure ValidPlan where
  device_manifest_hash : String
  steps : List RawStep
  confidence : Rat
  deriving DecidableEq, Repr

/-- ActionPlan validation: device_manifest_hash (pattern plus validator),
steps with min_length 1, each step, and metadata.confidence in [0, 1]. -/
def validate_action_plan (p : RawPlan) : Except String ValidPlan :=
  match validate_device_manifest_hash p.device_manifest_hash with
  | Except.error e => Except.error e
  | Except.ok h =>
      if p.steps.length < 1 then
        Except.error "steps must have at least 1 item"
      else
        match validate_steps p.steps with
        | Except.error e => Except.error e
        | Except.ok ss =>
            if p.confidence < 0 ∨ 1 < p.confidence then
              Except.error "confidence must be between 0 and 1"
            else
              Except.ok { device_manifest_hash := h, steps := ss,
                          confidence := p.confidence }

/-- Modelled from the spec: the control flow "Validator → Signature Verifier
→ Executor Engine" of section 2 is not wired together anywhere under src/
(the pydantic Validator and the ExecutorEngine exist but no src code calls
validate before execute), so the wiring is taken from the words of the spec:
a plan rejected by the Validator is rejected before any adapter is touched,
an accepted plan is handed to the Engine. -/
def validate_then_execute (eng : ExecutorEngine) (p : RawPlan)
    (toDict : ValidPlan → PlanDict) :
    Except String (List ExecutionResult) × List Event :=
  match validate_action_plan p with
  | Except.error e => (Except.error ("ValidationError: " ++ e), [])
  | Except.ok vp => execute_action_plan eng (toDict vp)

/-! ## Audit chain (src/schemas/python/audit_log.py plus spec section 4.6) -/

/-- Modelled from the spec: audit_log.py declares the checksum field of
AuditLogEntry (64 hex chars) and create_audit_entry builds entries, but no
code under src/ computes checksums or verifies a chain; the emit recurrence
checksum_i = H(checksum_(i-1), canonicalEncoding(entry_i)) is taken from
spec section 4.6.  H and the canonical encoding are parameters (section 9
leaves the encoding open).  chain_checksums seed entries is the list of
checksums emit assigns to the entries in order. -/
def chain_checksums {α : Type} (H : Nat → Nat → Nat) (enc : α → Nat) :
    Nat → List α → List Nat
  | _, [] => []
  | prev, e :: es =>
      H prev (enc e) :: chain_checksums H enc (H prev (enc e)) es

/-- Modelled from the spec: verifyChain of spec section 4.6 recomputes the
checksums in order over the recorded (entry, checksum) pairs and reports the
first index at which recorded and recomputed diverge. -/
def first_mismatch {α : Type} (H : Nat → Nat → Nat) (enc : α → Nat) :
    Nat → List (α × Nat) → Option Nat
  | _, [] => none
  | prev, (e, recorded) :: rest =>
      if H prev (enc e) = recorded then
        (first_mismatch H enc (H prev (enc e)) rest).map (· + 1)
      else some 0

/-- Modelled from the spec: verifyChain(entries) → bool is first_mismatch
finding no divergence. -/
def verify_chain {α : Type} (H : Nat → Nat → Nat) (enc : α → Nat)
    (seed : Nat) (log : List (α × Nat)) : Bool :=
  (first_mismatch H enc seed log).isNone

/-! ## Model of src/executor/ezra_executor/adapters/linux.py -/

/-- Outcome of subprocess.run inside LinuxAdapter.execute_command: normal
completion, TimeoutExpired, or any other raised exception. -/
inductive SubprocOutcome where
  | completed (returncode : Int) (stdout stderr : String)
  | timedOut
  | raised (msg : String)
  deriving DecidableEq, Repr

/-- LinuxAdapter.execute_command over an abstract system call: every outcome
is turned into an ExecutionResult, matching the try/except structure of the
source (the windows and android adapters share the same structure).  The
timeout default of the source is 300. -/
def linux_execute_command (sys : String → Nat → SubprocOutcome)
    (command : String) (timeout : Nat := 300) : ExecutionResult :=
  match sys command timeout with
  | SubprocOutcome.completed rc out err =>
      { success := rc == 0, output := out,
        error := if rc ≠ 0 then some err else none, exit_code := rc }
  | SubprocOutcome.timedOut =>
      { success := false,
        error := some ("Command timed out after " ++ toString timeout ++ " seconds") }
  | SubprocOutcome.raised msg =>
      { success := false, error := some msg }

/-! ## Derived predicates and concrete fixtures used by witnesses -/

/-- The stop condition of the execute_action_plan loop: the result of the action
failed and its risk_level is critical. -/
def critical_failure (ad : Adapter) (a : Action) : Prop :=
  (execute_action ad a).1.success = false ∧ a.risk_level = "critical"

instance (ad : Adapter) (a : Action) : Decidable (critical_failure ad a) :=
  inferInstanceAs (Decidable (_ ∧ _))

/-- An adapter whose operations all succeed. -/
def trivial_adapter : Adapter :=
  { execute_command := fun _ => { success := true },
    install_package := fun _ => { success := true },
    modify_file := fun _ _ => { success := true },
    create_backup := fun _ _ => { success := true },
    restore_backup := fun _ _ => { success := true } }

/-- An adapter on which exactly the command "boom" fails. -/
def demo_adapter : Adapter :=
  { execute_command := fun c =>
      if c = "boom" then { success := false, error := some "exit 1", exit_code := 1 }
      else { success := true },
    install_package := fun _ => { success := true },
    modify_file := fun _ _ => { success := true },
    create_backup := fun _ _ => { success := true },
    restore_backup := fun _ _ => { success := true } }

/-- A four-action plan whose third action fails critically on demo_adapter. -/
def demo_actions : List Action :=
  [{ id := "s1", type := "custom", commands := ["a"], risk_level := "low" },
   { id := "s2", type := "custom", commands := ["b"] },
   { id := "s3", type := "custom", commands := ["boom"], risk_level := "critical" },
   { id := "s4", type := "custom", commands := ["c"] }]

/-- A subprocess runner for the agent model on which "step" exits 1,
"rb" exits 2, and everything else succeeds. -/
def demo_runner : String → RawOutcome := fun c =>
  if c = "step" then RawOutcome.completed 1 "" "boom"
  else if c = "rb" then RawOutcome.completed 2 "" "rbfail"
  else RawOutcome.completed 0 "out" ""

/-- An agent action that fails on demo_runner and whose rollback command
also fails. -/
def demo_action : Action :=
  { id := "a1", type := "custom", commands := ["step"],
    risk_level := "medium", rollback_commands := some ["rb"] }

/-- A raw plan with a well-formed hash but an empty steps sequence. -/
def demo_raw_plan : RawPlan :=
  { device_manifest_hash := String.mk (List.replicate 64 'a'),
    steps := [], confidence := 1 }

/-! ## Helper lemmas -/

/-- The backup hook events are not adapter invocations. -/
lemma filter_backup_hook (a : Action) :
    List.filter Event.is_adapter_call
      (if a.risk_level = "high" ∨ a.risk_level = "critical"
        then [Event.backup a.id] else []) = [] := by
  split <;> simp [Event.is_adapter_call]

/-- validate_step returns its argument unchanged when it succeeds. -/
lemma validate_step_ok (s s1 : RawStep) (h : validate_step s = Except.ok s1) :
    s1 = s := by
  unfold validate_step at h
  split at h
  · simp at h
  · split at h
    · simp at h
    · split at h
      · exact (Except.ok.inj h).symm
      · split at h
        · exact (Except.ok.inj h).symm
        · simp at h

/-- validate_steps returns its argument unchanged when it succeeds. -/
lemma validate_steps_ok :
    ∀ (ss ss1 : List RawStep), validate_steps ss = Except.ok ss1 → ss1 = ss := by
  intro ss
  induction ss with
  | nil =>
      intro ss1 h
      simp only [validate_steps, Except.ok.injEq] at h
      exact h.symm
  | cons s t ih =>
      intro ss1 h
      unfold validate_steps at h
      split at h
      · simp at h
      · next s1 hs =>
          split at h
          · simp at h
          · next t1 ht =>
              simp only [Except.ok.injEq] at h
              rw [← h, validate_step_ok s s1 hs, ih t1 ht]

/-- Up to and including the first critical failure, execute_action_plan is
the per-action map over the prefix of attempted actions. -/
lemma execute_plan_actions_stop (ad : Adapter) :
    ∀ (actions : List Action) (i : Nat) (hi : i < actions.length),
      (∀ j, (hj : j < i) →
        ¬ critical_failure ad actions[j]) →
      critical_failure ad actions[i] →
      execute_plan_actions ad actions
        = ((actions.take (i+1)).map (fun a => (execute_action ad a).1),
            (actions.take (i+1)).flatMap (fun a => (execute_action ad a).2)) := by
  intro actions
  induction actions with
  | nil => intro i hi; exact absurd hi (by simp)
  | cons a rest ih =>
      intro i hi hbefore hcrit
      cases i with
      | zero =>
          have hc : (execute_action ad a).1.success = false
              ∧ a.risk_level = "critical" := hcrit
          simp only [execute_plan_actions, if_pos hc]
          simp
      | succ j =>
          have hj : j < rest.length := by simpa using hi
          have hnc : ¬ critical_failure ad a := by
            have := hbefore 0 (Nat.succ_pos j)
            simpa using this
          have hb2 : ∀ k, (hk : k < j) →
              ¬ critical_failure ad rest[k] := by
            intro k hk
            have := hbefore (k + 1) (by omega)
            simpa using this
          have hc2 : critical_failure ad rest[j] := by simpa using hcrit
          have hnc2 : ¬ ((execute_action ad a).1.success = false
              ∧ a.risk_level = "critical") := hnc
          simp only [execute_plan_actions, if_neg hnc2]
          rw [ih j hj hb2 hc2]
          simp [List.take_succ_cons]

/-- Every failing rollback command is logged by the rollback loop. -/
lemma rollback_failures_logged (runner : String → RawOutcome) :
    ∀ (cmds : List String) (c : String), c ∈ cmds →
      ∀ msg, agent_execute_command runner c = Except.error msg →
      (c, msg) ∈ (agent_rollback_loop runner cmds).1 := by
  intro cmds
  induction cmds with
  | nil => intro c hc; simp at hc
  | cons d ds ih =>
      intro c hc msg hmsg
      rcases List.mem_cons.mp hc with h | hmem
      · subst h
        simp only [agent_rollback_loop, hmsg]
        exact List.mem_cons_self _ _
      · cases hd : agent_execute_command runner d with
        | error e2 =>
            simp only [agent_rollback_loop, hd]
            exact List.mem_cons_of_mem _ (ih c hmem msg hmsg)
        | ok o =>
            simp only [agent_rollback_loop, hd]
            exact ih c hmem msg hmsg

/-- The engine command loop emits no backup event. -/
lemma run_command_list_no_backup (ad : Adapter) :
    ∀ (cs : List String) (s : String),
      Event.backup s ∉ (run_command_list ad cs).2 := by
  intro cs
  induction cs with
  | nil => intro s; simp [run_command_list]
  | cons c cs ih =>
      intro s
      simp only [run_command_list]
      split
      · simp only [List.mem_cons, not_or]
        exact ⟨by simp, ih s⟩
      · simp

/-- _execute_commands emits no backup event. -/
lemma execute_commands_no_backup (ad : Adapter) (cs : List String) (s : String) :
    Event.backup s ∉ (execute_commands ad cs).2 := by
  unfold execute_commands
  split
  · simp
  · exact run_command_list_no_backup ad cs s

/-- _execute_install emits no backup event. -/
lemma execute_install_no_backup (ad : Adapter) (a : Action) (s : String) :
    Event.backup s ∉ (execute_install ad a).2 := by
  unfold execute_install
  split <;> simp

/-- _execute_configure emits no backup event. -/
lemma execute_configure_no_backup (ad : Adapter) (a : Action) (s : String) :
    Event.backup s ∉ (execute_configure ad a).2 := by
  unfold execute_configure
  split
  · simp
  · exact execute_commands_no_backup ad a.commands s

/-- _execute_modify emits no backup event. -/
lemma execute_modify_no_backup (ad : Adapter) (a : Action) (s : String) :
    Event.backup s ∉ (execute_modify ad a).2 := by
  unfold execute_modify
  split
  · simp
  · exact execute_commands_no_backup ad a.commands s

/-- _execute_backup emits no engine backup-hook event. -/
lemma execute_backup_no_backup (ad : Adapter) (a : Action) (s : String) :
    Event.backup s ∉ (execute_backup ad a).2 := by
  unfold execute_backup
  split <;> simp

/-- _execute_restore emits no engine backup-hook event. -/
lemma execute_restore_no_backup (ad : Adapter) (a : Action) (s : String) :
    Event.backup s ∉ (execute_restore ad a).2 := by
  unfold execute_restore
  split <;> simp

/-- The whole type dispatch emits no backup event: only the risk hook of
execute_action does. -/
lemma dispatch_no_backup (ad : Adapter) (a : Action) (s : String) :
    Event.backup s ∉ (dispatch_action ad a).2 := by
  unfold dispatch_action
  split_ifs
  · exact execute_install_no_backup ad a s
  · exact execute_configure_no_backup ad a s
  · exact execute_modify_no_backup ad a s
  · exact execute_backup_no_backup ad a s
  · exact execute_restore_no_backup ad a s
  · exact execute_commands_no_backup ad a.commands s
  · exact execute_commands_no_backup ad a.commands s
  · exact execute_commands_no_backup ad a.commands s

/-- The agent command loop emits no backup-file event. -/
lemma agent_run_commands_no_backup (runner : String → RawOutcome) :
    ∀ (cs : List String) (p : String),
      AEvent.backupFile p ∉ (agent_run_commands runner cs).2 := by
  intro cs
  induction cs with
  | nil => intro p; simp [agent_run_commands]
  | cons c cs ih =>
      intro p
      have ihp := ih p
      simp only [agent_run_commands]
      cases h : agent_execute_command runner c with
      | error e => simp
      | ok o =>
          rcases h2 : agent_run_commands runner cs with ⟨fst, snd⟩
          rw [h2] at ihp
          cases fst <;> simp_all

/-- The agent rollback loop emits no backup-file event. -/
lemma agent_rollback_loop_no_backup (runner : String → RawOutcome) :
    ∀ (cs : List String) (p : String),
      AEvent.backupFile p ∉ (agent_rollback_loop runner cs).2 := by
  intro cs
  induction cs with
  | nil => intro p; simp [agent_rollback_loop]
  | cons c cs ih =>
      intro p
      have ihp := ih p
      simp only [agent_rollback_loop]
      cases h : agent_execute_command runner c <;> simp_all

/-- First checksum of a chain. -/
lemma chain_head {α : Type} (H : Nat → Nat → Nat) (enc : α → Nat) (p : Nat)
    (l : List α) :
    (chain_checksums H enc p l)[0]? = l[0]?.map (fun e => H p (enc e)) := by
  cases l <;> simp [chain_checksums]

/-- Each checksum of a chain is H of the previous checksum and the encoding
of the entry at that position. -/
lemma chain_getElem_succ {α : Type} (H : Nat → Nat → Nat) (enc : α → Nat) :
    ∀ (l : List α) (seed j : Nat),
      (chain_checksums H enc seed l)[j+1]?
        = ((chain_checksums H enc seed l)[j]?).bind
            (fun c => (l[j+1]?).map (fun x => H c (enc x))) := by
  intro l
  induction l with
  | nil => intro seed j; simp [chain_checksums]
  | cons e es ih =>
      intro seed j
      cases j with
      | zero => simp [chain_checksums, chain_head]
      | succ k =>
          simp only [chain_checksums, List.getElem?_cons_succ]
          exact ih (H seed (enc e)) k

/-- An unmutated chain recomputes to itself: no mismatch. -/
lemma first_mismatch_self {α : Type} (H : Nat → Nat → Nat) (enc : α → Nat) :
    ∀ (l : List α) (seed : Nat),
      first_mismatch H enc seed (l.zip (chain_checksums H enc seed l)) = none := by
  intro l
  induction l with
  | nil => intro seed; simp [chain_checksums, first_mismatch]
  | cons e es ih =>
      intro seed
      simp only [chain_checksums, List.zip_cons_cons, first_mismatch, if_pos rfl]
      simpa using ih (H seed (enc e))

/-- Mutating the entry at index i (to one whose canonical encoding differs)
makes recomputation diverge first exactly at index i, when H is injective in
its entry argument. -/
lemma first_mismatch_set {α : Type} (H : Nat → Nat → Nat) (enc : α → Nat)
    (hinj : ∀ p, Function.Injective (H p)) :
    ∀ (l : List α) (seed i : Nat) (hi : i < l.length) (e2 : α),
      enc e2 ≠ enc l[i] →
      first_mismatch H enc seed
        ((l.set i e2).zip (chain_checksums H enc seed l)) = some i := by
  intro l
  induction l with
  | nil => intro seed i hi; simp at hi
  | cons e es ih =>
      intro seed i hi e2 hne
      cases i with
      | zero =>
          have hne0 : enc e2 ≠ enc e := by simpa using hne
          have hH : ¬ (H seed (enc e2) = H seed (enc e)) :=
            fun hcol => hne0 (hinj seed hcol)
          simp only [List.set_cons_zero, chain_checksums, List.zip_cons_cons,
            first_mismatch, if_neg hH]
      | succ k =>
          have hk : k < es.length := by simpa using hi
          have hne2 : enc e2 ≠ enc es[k] := by simpa using hne
          simp only [List.set_cons_succ, chain_checksums, List.zip_cons_cons,
            first_mismatch, if_pos rfl]
          simpa using ih (H seed (enc e)) k hk e2 hne2

/-- Nat.pair is injective in its second argument: a computable stand-in for
a collision-free hash, used by the witness. -/
lemma pair_snd_injective (p : Nat) : Function.Injective (Nat.pair p) :=
  fun _ _ h => (Nat.pair_eq_pair.mp h).2

/-! ## Claims -/

/-- C1: along the emitted chain, checksum j+1 is H of checksum j and the
canonical encoding of entry j+1 (and checksum 0 is H of the seed and entry
0 by chain_head); the unmutated chain verifies; and when the details of
entry i are mutated so that its canonical encoding changes, recomputation
reports the first mismatch exactly at index i — not earlier, not later —
for any H injective in its entry argument. -/
theorem c1_audit_chain_first_mismatch {α : Type} (H : Nat → Nat → Nat)
    (enc : α → Nat) (hinj : ∀ p, Function.Injective (H p)) (seed : Nat)
    (entries : List α) (i : Nat) (hi : i < entries.length) (e2 : α)
    (hne : enc e2 ≠ enc entries[i]) :
    (∀ j : Nat, (chain_checksums H enc seed entries)[j+1]?
        = ((chain_checksums H enc seed entries)[j]?).bind
            (fun c => (entries[j+1]?).map (fun x => H c (enc x))))
    ∧ verify_chain H enc seed
        (entries.zip (chain_checksums H enc seed entries)) = true
    ∧ first_mismatch H enc seed
        ((entries.set i e2).zip (chain_checksums H enc seed entries)) = some i := by
  refine ⟨fun j => chain_getElem_succ H enc entries seed j, ?_,
    first_mismatch_set H enc hinj entries seed i hi e2 hne⟩
  simp [verify_chain, first_mismatch_self]

/-- Witness for C1: a five-entry chain over the pairing function, entry 2
mutated from 30 to 7, detected exactly at index 2. -/
theorem c1_audit_chain_first_mismatch_witness :
    (id (7 : Nat) ≠ id (([10, 20, 30, 40, 50] : List Nat).get ⟨2, by decide⟩))
    ∧ first_mismatch Nat.pair id 0
        ((([10, 20, 30, 40, 50] : List Nat).set 2 7).zip
          (chain_checksums Nat.pair id 0 [10, 20, 30, 40, 50])) = some 2 :=
  ⟨by decide,
    (c1_audit_chain_first_mismatch Nat.pair id pair_snd_injective 0
      [10, 20, 30, 40, 50] 2 (by decide) 7 (by decide)).2.2⟩

/-- C2: when the first critically failing action sits at index i, the
results list is exactly one entry per attempted action (indices 0..i), its
length is i+1, its last entry is the failed result of the critical action,
and no later action contributes; a failing action whose risk tier is not
critical is recorded and execution proceeds to the next action. -/
theorem c2_critical_aborts_noncritical_continues (ad : Adapter)
    (actions : List Action) (i : Nat) (hi : i < actions.length)
    (hbefore : ∀ j, (hj : j < i) → ¬ critical_failure ad actions[j])
    (hcrit : critical_failure ad actions[i]) :
    (execute_plan_actions ad actions).1
        = (actions.take (i+1)).map (fun a => (execute_action ad a).1)
    ∧ (execute_plan_actions ad actions).1.length = i + 1
    ∧ (execute_plan_actions ad actions).1.getLast?
        = some (execute_action ad actions[i]).1
    ∧ (execute_action ad actions[i]).1.success = false
    ∧ ∀ (b : Action) (rest : List Action),
        (execute_action ad b).1.success = false → b.risk_level ≠ "critical" →
        (execute_plan_actions ad (b :: rest)).1
          = (execute_action ad b).1 :: (execute_plan_actions ad rest).1 := by
  have hstop := execute_plan_actions_stop ad actions i hi hbefore hcrit
  have h1 : (execute_plan_actions ad actions).1
      = (actions.take (i+1)).map (fun a => (execute_action ad a).1) := by
    rw [hstop]
  have hlen : (execute_plan_actions ad actions).1.length = i + 1 := by
    rw [h1]
    simp only [List.length_map, List.length_take]
    omega
  refine ⟨h1, hlen, ?_, hcrit.1, ?_⟩
  · rw [List.getLast?_eq_getElem?, hlen, h1]
    simp only [Nat.add_sub_cancel]
    rw [List.getElem?_map, List.getElem?_take, if_pos (Nat.lt_succ_self i),
      List.getElem?_eq_getElem hi]
    rfl
  · intro b rest hf hb
    have hnc : ¬ ((execute_action ad b).1.success = false
        ∧ b.risk_level = "critical") := fun hx => hb hx.2
    simp only [execute_plan_actions, if_neg hnc]

/-- Witness for C2 on a four-action plan whose third action fails
critically: three results are produced. -/
theorem c2_critical_aborts_noncritical_continues_witness :
    critical_failure demo_adapter (demo_actions.get ⟨2, by decide⟩)
    ∧ (execute_plan_actions demo_adapter demo_actions).1.length = 3 :=
  ⟨by decide,
    (c2_critical_aborts_noncritical_continues demo_adapter demo_actions 2
      (by decide) (by decide) (by decide)).2.1⟩

/-- C3: if signature verification fails, or the verifier is unreachable or
returns a malformed response, process_request hands no plan to the executor
(zero steps run) and returns False; unreachable, malformed, a body missing
the valid key, and valid=false all yield the same fail-closed outcome. -/
theorem c3_verification_fails_closed {Plan : Type}
    (planResp : Option (AgentResponse Plan)) (vo : VerifierOutcome)
    (executor : Plan → List AgentResult)
    (h : verify_signature vo = false) :
    (process_request planResp vo executor).executed_plans = []
    ∧ (process_request planResp vo executor).success = false
    ∧ verify_signature VerifierOutcome.unreachable = false
    ∧ verify_signature VerifierOutcome.malformed = false
    ∧ verify_signature (VerifierOutcome.responded none) = false
    ∧ verify_signature (VerifierOutcome.responded (some false)) = false := by
  refine ⟨?_, ?_, rfl, rfl, rfl, rfl⟩ <;>
    cases planResp <;> simp [process_request, h]

/-- Witness for C3 at a concrete plan, executor and unreachable verifier. -/
theorem c3_verification_fails_closed_witness :
    verify_signature VerifierOutcome.unreachable = false
    ∧ (process_request (some (AgentResponse.mk (0 : Nat) false))
          VerifierOutcome.unreachable
          (fun _ => ([] : List AgentResult))).executed_plans = [] :=
  ⟨rfl,
    (c3_verification_fails_closed (some (AgentResponse.mk (0 : Nat) false))
      VerifierOutcome.unreachable (fun _ => []) rfl).1⟩

/-- C5: when the commands of an action fail and rollback commands are
present, the executor still returns the failed result carrying the original
error (for every runner, hence whatever the rollback commands do), every
failing rollback command is logged and swallowed inside the total rollback
loop, and a non-critical failing action does not stop the plan: the next
actions still run. -/
theorem c5_rollback_swallowed (runner : String → RawOutcome) (now : Nat)
    (a : Action) (rest : List Action) (e : String)
    (hfail : (agent_run_commands runner a.commands).1 = Except.error e)
    (rcmds : List String) (hrb : a.rollback_commands = some rcmds)
    (hnc : a.risk_level ≠ "critical") :
    (agent_execute_action runner now a).1
      = { action_id := a.id, status := "failed", error := some e }
    ∧ (∀ c ∈ rcmds, ∀ msg, agent_execute_command runner c = Except.error msg →
        (c, msg) ∈ (agent_execute_rollback runner a).1)
    ∧ (agent_execute_action_plan runner now (a :: rest)).1
      = (agent_execute_action runner now a).1
          :: (agent_execute_action_plan runner now rest).1 := by
  refine ⟨?_, ?_, ?_⟩
  · simp only [agent_execute_action, hfail]
  · intro c hc msg hmsg
    simp only [agent_execute_rollback, hrb, Option.getD_some]
    exact rollback_failures_logged runner rcmds c hc msg hmsg
  · have hx : ¬ ((agent_execute_action runner now a).1.status = "failed"
        ∧ a.risk_level = "critical") := fun h => hnc h.2
    simp only [agent_execute_action_plan, if_neg hx]

/-- Witness for C5 at a failing action whose rollback command also fails. -/
theorem c5_rollback_swallowed_witness :
    (agent_run_commands demo_runner demo_action.commands).1
        = Except.error "Command failed with code 1: boom"
    ∧ (agent_execute_action demo_runner 0 demo_action).1
        = { action_id := "a1", status := "failed",
            error := some "Command failed with code 1: boom" } :=
  ⟨rfl,
    (c5_rollback_swallowed demo_runner 0 demo_action []
      "Command failed with code 1: boom" rfl ["rb"] rfl (by decide)).1⟩

/-- C6: a plan declaring a platform with no registered adapter makes
execute_action_plan report the unsupported-platform error with no results
and an empty event trace (no adapter operation invoked, zero steps run);
platforms outside linux, windows, android are exactly the unregistered
ones of the constructor registry. -/
theorem c6_unsupported_platform_executes_nothing (eng : ExecutorEngine)
    (plan : PlanDict) (h : eng.adapters.lookup plan.platform = none) :
    execute_action_plan eng plan
      = (Except.error ("Unsupported platform: " ++ plan.platform), [])
    ∧ ∀ (l w a : Adapter) (p : String), p ∉ ["linux", "windows", "android"] →
        (default_adapters l w a).lookup p = none := by
  constructor
  · simp [execute_action_plan, get_adapter, h]
  · intro l w a p hp
    simp only [List.mem_cons, List.not_mem_nil, or_false, not_or] at hp
    obtain ⟨h1, h2, h3⟩ := hp
    have b1 : (p == "linux") = false := beq_eq_false_iff_ne.mpr h1
    have b2 : (p == "windows") = false := beq_eq_false_iff_ne.mpr h2
    have b3 : (p == "android") = false := beq_eq_false_iff_ne.mpr h3
    simp [default_adapters, List.lookup, b1, b2, b3]

/-- Witness for C6 at the constructor registry and the platform "macos". -/
theorem c6_unsupported_platform_executes_nothing_witness :
    (ExecutorEngine.mk
        (default_adapters trivial_adapter trivial_adapter trivial_adapter)).adapters.lookup
        "macos" = none
    ∧ execute_action_plan
        (ExecutorEngine.mk
          (default_adapters trivial_adapter trivial_adapter trivial_adapter))
        { platform := "macos", actions := [{ id := "s1" }] }
      = (Except.error ("Unsupported platform: " ++ "macos"), []) :=
  ⟨rfl,
    (c6_unsupported_platform_executes_nothing
      (ExecutorEngine.mk
        (default_adapters trivial_adapter trivial_adapter trivial_adapter))
      { platform := "macos", actions := [{ id := "s1" }] } rfl).1⟩

/-- C7: for a step whose risk tier is high or critical, the backup — tagged
with the step id and the timestamp through backup_filename — is the very
first event of the step, before any command, and no backup happens later;
in both the agent executor and the engine.  Steps of lower risk trigger no
backup at all. -/
theorem c7_backup_before_commands (runner : String → RawOutcome) (now : Nat)
    (ad : Adapter) (a : Action) :
    ((a.risk_level = "high" ∨ a.risk_level = "critical") →
      (∃ evs, (agent_execute_action runner now a).2
          = AEvent.backupFile (backup_filename a.id now) :: evs
        ∧ ∀ p, AEvent.backupFile p ∉ evs)
      ∧ (∃ evs, (execute_action ad a).2 = Event.backup a.id :: evs
        ∧ ∀ s, Event.backup s ∉ evs))
    ∧ (a.risk_level ≠ "high" → a.risk_level ≠ "critical" →
      (∀ p, AEvent.backupFile p ∉ (agent_execute_action runner now a).2)
      ∧ (∀ s, Event.backup s ∉ (execute_action ad a).2)) := by
  constructor
  · intro hr
    constructor
    · cases hc : (agent_run_commands runner a.commands).1 with
      | ok outs =>
          refine ⟨(agent_run_commands runner a.commands).2, ?_, ?_⟩
          · simp [agent_execute_action, hc, if_pos hr]
          · intro p
            exact agent_run_commands_no_backup runner a.commands p
      | error e =>
          refine ⟨(agent_run_commands runner a.commands).2
              ++ (if a.rollback_commands.isSome
                    then (agent_execute_rollback runner a).2 else []), ?_, ?_⟩
          · simp [agent_execute_action, hc, if_pos hr]
          · intro p
            simp only [List.mem_append]
            rintro (h | h)
            · exact agent_run_commands_no_backup runner a.commands p h
            · revert h
              split
              · intro h
                exact agent_rollback_loop_no_backup runner _ p h
              · intro h
                simp at h
    · refine ⟨(dispatch_action ad a).2, ?_, ?_⟩
      · simp [execute_action, if_pos hr]
      · intro s
        exact dispatch_no_backup ad a s
  · intro h1 h2
    have hr : ¬ (a.risk_level = "high" ∨ a.risk_level = "critical") := by
      rintro (h | h)
      · exact h1 h
      · exact h2 h
    constructor
    · intro p
      cases hc : (agent_run_commands runner a.commands).1 with
      | ok outs =>
          simp only [agent_execute_action, hc, if_neg hr, List.nil_append]
          exact agent_run_commands_no_backup runner a.commands p
      | error e =>
          simp only [agent_execute_action, hc, if_neg hr, List.nil_append,
            List.mem_append]
          rintro (h | h)
          · exact agent_run_commands_no_backup runner a.commands p h
          · revert h
            split
            · intro h
              exact agent_rollback_loop_no_backup runner _ p h
            · intro h
              simp at h
    · intro s
      simp only [execute_action, if_neg hr, List.nil_append]
      exact dispatch_no_backup ad a s

/-- Witness for C7 at a concrete high-risk action. -/
theorem c7_backup_before_commands_witness :
    (("high" : String) = "high" ∨ ("high" : String) = "critical")
    ∧ ∃ evs,
        (agent_execute_action demo_runner 7
            { id := "a2", type := "custom", commands := ["x"],
              risk_level := "high" }).2
          = AEvent.backupFile (backup_filename "a2" 7) :: evs
        ∧ ∀ p, AEvent.backupFile p ∉ evs :=
  ⟨Or.inl rfl,
    ((c7_backup_before_commands demo_runner 7 trivial_adapter
        { id := "a2", type := "custom", commands := ["x"],
          risk_level := "high" }).1 (Or.inl rfl)).1⟩

/-- C8: execute_command is total over every subprocess outcome: ordinary
failure yields success=false with the exit code and stderr recorded, success
yields success=true with the output, timeout expiry yields a failed result
carrying the timeout message (not a crash), a raised exception yields a
failed result carrying its message, and the timeout defaults to 300. -/
theorem c8_execute_command_total (sys : String → Nat → SubprocOutcome)
    (command : String) (timeout : Nat) :
    (∀ rc out err, sys command timeout = SubprocOutcome.completed rc out err →
        rc ≠ 0 →
        (linux_execute_command sys command timeout).success = false
        ∧ (linux_execute_command sys command timeout).exit_code = rc
        ∧ (linux_execute_command sys command timeout).error = some err)
    ∧ (∀ out err, sys command timeout = SubprocOutcome.completed 0 out err →
        (linux_execute_command sys command timeout).success = true
        ∧ (linux_execute_command sys command timeout).output = out)
    ∧ (sys command timeout = SubprocOutcome.timedOut →
        (linux_execute_command sys command timeout).success = false
        ∧ (linux_execute_command sys command timeout).error
            = some ("Command timed out after " ++ toString timeout ++ " seconds"))
    ∧ (∀ msg, sys command timeout = SubprocOutcome.raised msg →
        (linux_execute_command sys command timeout).success = false
        ∧ (linux_execute_command sys command timeout).error = some msg)
    ∧ linux_execute_command sys command = linux_execute_command sys command 300 := by
  refine ⟨?_, ?_, ?_, ?_, rfl⟩
  · intro rc out err hout hrc
    simp [linux_execute_command, hout, hrc]
  · intro out err hout
    simp [linux_execute_command, hout]
  · intro hout
    simp [linux_execute_command, hout]
  · intro msg hout
    simp [linux_execute_command, hout]

/-- Witness for C8 at a runner whose every command times out. -/
theorem c8_execute_command_total_witness :
    ((fun (_ : String) (_ : Nat) => SubprocOutcome.timedOut) "x" 5
        = SubprocOutcome.timedOut)
    ∧ (linux_execute_command (fun _ _ => SubprocOutcome.timedOut) "x" 5).success
        = false :=
  ⟨rfl,
    ((c8_execute_command_total (fun _ _ => SubprocOutcome.timedOut) "x" 5).2.2.1
      rfl).1⟩

/-- C4 evidence: a 64-character all-uppercase hex value is rejected by both
hash fields (the pattern constraint runs before the lowercasing validator,
so mixed-case input never reaches it), while lowercase input of the right
shape is accepted unchanged, and non-hex or wrong-length input is rejected. -/
theorem c4_uppercase_hash_rejected :
    validate_device_manifest_hash (String.mk (List.replicate 64 'A'))
      = Except.error "String should match pattern"
    ∧ validate_artifact_sha256 (String.mk (List.replicate 64 'A'))
      = Except.error "String should match pattern"
    ∧ validate_device_manifest_hash (String.mk (List.replicate 64 'a'))
      = Except.ok (String.mk (List.replicate 64 'a'))
    ∧ validate_device_manifest_hash "0abc"
      = Except.error "String should match pattern"
    ∧ validate_artifact_sha256 (String.mk (List.replicate 63 'a') ++ "g")
      = Except.error "String should match pattern" := by
  refine ⟨rfl, rfl, ?_, rfl, rfl⟩
  rfl

/-- C10: with no adapter invocation at all, a generic action with an empty
command list fails with "No commands specified", an install action with no
package fails with "No package specified", and backup/restore actions
missing their source, backup path or destination fail with the
corresponding error. -/
theorem c10_empty_inputs_fail_without_adapter (ad : Adapter) (a : Action) :
    (a.type ≠ "install" → a.type ≠ "configure" → a.type ≠ "modify" →
      a.type ≠ "backup" → a.type ≠ "restore" → a.commands = [] →
        (execute_action ad a).1
          = { success := false, error := some "No commands specified" }
        ∧ List.filter Event.is_adapter_call (execute_action ad a).2 = [])
    ∧ (a.type = "install" → a.package = "" →
        (execute_action ad a).1
          = { success := false, error := some "No package specified" }
        ∧ List.filter Event.is_adapter_call (execute_action ad a).2 = [])
    ∧ (a.type = "backup" → a.source = "" ∨ a.destination = "" →
        (execute_action ad a).1
          = { success := false, error := some "No source or destination specified" }
        ∧ List.filter Event.is_adapter_call (execute_action ad a).2 = [])
    ∧ (a.type = "restore" → a.backup_path = "" ∨ a.destination = "" →
        (execute_action ad a).1
          = { success := false,
              error := some "No backup path or destination specified" }
        ∧ List.filter Event.is_adapter_call (execute_action ad a).2 = []) := by
  refine ⟨?_, ?_, ?_, ?_⟩
  · intro h1 h2 h3 h4 h5 hcmd
    have hd : dispatch_action ad a = execute_commands ad a.commands := by
      simp [dispatch_action, h1, h2, h3, h4, h5]
    have he : execute_commands ad a.commands
        = ({ success := false, error := some "No commands specified" }, []) := by
      simp [execute_commands, hcmd]
    constructor
    · simp [execute_action, hd, he]
    · simp [execute_action, hd, he, List.filter_append, filter_backup_hook]
  · intro h1 hpkg
    have hd : dispatch_action ad a
        = ({ success := false, error := some "No package specified" }, []) := by
      simp [dispatch_action, h1, execute_install, hpkg]
    constructor
    · simp [execute_action, hd]
    · simp [execute_action, hd, List.filter_append, filter_backup_hook]
  · intro h1 hsd
    have h0 : ¬ (a.source ≠ "" ∧ a.destination ≠ "") := by
      rcases hsd with h | h <;> simp [h]
    have hd : dispatch_action ad a
        = ({ success := false,
              error := some "No source or destination specified" }, []) := by
      by_cases hins : a.type = "install"
      · rw [hins] at h1; simp at h1
      · simp [dispatch_action, hins, h1, execute_backup, h0]
    constructor
    · simp [execute_action, hd]
    · simp [execute_action, hd, List.filter_append, filter_backup_hook]
  · intro h1 hsd
    have h0 : ¬ (a.backup_path ≠ "" ∧ a.destination ≠ "") := by
      rcases hsd with h | h <;> simp [h]
    have hd : dispatch_action ad a
        = ({ success := false,
              error := some "No backup path or destination specified" }, []) := by
      by_cases hins : a.type = "install"
      · rw [hins] at h1; simp at h1
      · by_cases hcfg : a.type = "configure"
        · rw [hcfg] at h1; simp at h1
        · by_cases hmod : a.type = "modify"
          · rw [hmod] at h1; simp at h1
          · by_cases hbk : a.type = "backup"
            · rw [hbk] at h1; simp at h1
            · simp [dispatch_action, hins, hcfg, hmod, hbk, h1,
                execute_restore, h0]
    constructor
    · simp [execute_action, hd]
    · simp [execute_action, hd, List.filter_append, filter_backup_hook]

/-- C9: a raw plan whose steps sequence is empty is rejected by validation
with a validation error before any adapter operation is invoked (empty
event trace), and any plan accepted by validation has at least one step. -/
theorem c9_empty_steps_rejected (eng : ExecutorEngine) (p : RawPlan)
    (toDict : ValidPlan → PlanDict) (h : p.steps = []) :
    (∃ e, validate_then_execute eng p toDict = (Except.error e, []))
    ∧ ∀ (q : RawPlan) (vp : ValidPlan),
        validate_action_plan q = Except.ok vp → 1 ≤ vp.steps.length := by
  constructor
  · unfold validate_then_execute validate_action_plan
    cases hh : validate_device_manifest_hash p.device_manifest_hash with
    | error e => exact ⟨"ValidationError: " ++ e, by simp [hh]⟩
    | ok hs =>
        refine ⟨"ValidationError: " ++ "steps must have at least 1 item", ?_⟩
        simp [hh, h]
  · intro q vp hv
    unfold validate_action_plan at hv
    cases hh : validate_device_manifest_hash q.device_manifest_hash with
    | error e => rw [hh] at hv; simp at hv
    | ok hs =>
        rw [hh] at hv
        dsimp only at hv
        by_cases hl : q.steps.length < 1
        · rw [if_pos hl] at hv; simp at hv
        · rw [if_neg hl] at hv
          cases hss : validate_steps q.steps with
          | error e => rw [hss] at hv; simp at hv
          | ok ss =>
              rw [hss] at hv
              dsimp only at hv
              by_cases hc : q.confidence < 0 ∨ 1 < q.confidence
              · rw [if_pos hc] at hv; simp at hv
              · rw [if_neg hc] at hv
                simp only [Except.ok.injEq] at hv
                have e1 : vp.steps = ss := by rw [← hv]
                rw [e1, validate_steps_ok q.steps ss hss]
                omega

/-- Witness for C9 at a concrete raw plan with zero steps. -/
theorem c9_empty_steps_rejected_witness :
    demo_raw_plan.steps = []
    ∧ ∃ e, validate_then_execute (ExecutorEngine.mk []) demo_raw_plan
        (fun _ => {}) = (Except.error e, []) :=
  ⟨rfl,
    (c9_empty_steps_rejected (ExecutorEngine.mk []) demo_raw_plan
      (fun _ => {}) rfl).1⟩

/-- Witness for C10 at a custom-typed action with an empty command list. -/
theorem c10_empty_inputs_fail_without_adapter_witness :
    ({ type := "custom" } : Action).commands = []
    ∧ (execute_action trivial_adapter { type := "custom" }).1
        = { success := false, error := some "No commands specified" } :=
  ⟨rfl,
    ((c10_empty_inputs_fail_without_adapter trivial_adapter
        { type := "custom" }).1
      (by decide) (by decide) (by decide) (by decide) (by decide) rfl).1⟩

end Ezra
